import Mathlib

/-!
Shallow embedding of the ConfigCat OpenFeature provider (src/provider.rs).

The repository is a translation shim between the `open_feature` provider
vocabulary and the `configcat` evaluation-engine vocabulary.  The adapter
code under `src/` is embedded faithfully; the data types of the two
collaborating crates (which are not part of this repository's sources)
are modelled from the spec's data model where noted.
-/

set_option autoImplicit false

namespace ConfigCatProvider

/-- IEEE-754 `f64` values.  The adapter never inspects or computes with
float values — it only passes them through unchanged — so an `f64` is
modelled by its bit pattern. -/
structure F64 where
  bits : Nat
  deriving DecidableEq, Repr

/-- Modelled from the spec: a timestamp attribute value, represented by the
only observation the adapter makes of it, its Unix time in integer
seconds (`OffsetDateTime::unix_timestamp`). -/
structure DateTime where
  unix_seconds : Int
  deriving DecidableEq, Repr

/-- `unix_timestamp` of the `time` crate: the Unix time in whole seconds. -/
def DateTime.unix_timestamp (d : DateTime) : Int :=
  d.unix_seconds

/-- The generic provider's value type (`open_feature::Value`), modelled from
the spec's data model: boolean, integer, float, string, array, or keyed
structure.  A structure (`StructValue`) is represented by its field list. -/
inductive Value where
  | bool : Bool → Value
  | int : Int → Value
  | float : F64 → Value
  | string : String → Value
  | array : List Value → Value
  | struct : List (String × Value) → Value

/-- `open_feature::StructValue`: a keyed mapping of fields, represented by
its association list of fields. -/
def StructValue : Type := List (String × Value)

/-- `Value::as_struct`: yields the keyed structure when the value is one. -/
def Value.as_struct : Value → Option StructValue
  | Value.struct fields => some fields
  | _ => none

/-- `open_feature::EvaluationContextFieldValue`, modelled from the spec's
data model: an attribute value is a boolean, integer, float, string,
timestamp, or nested structure. -/
inductive EvaluationContextFieldValue where
  | bool : Bool → EvaluationContextFieldValue
  | int : Int → EvaluationContextFieldValue
  | float : F64 → EvaluationContextFieldValue
  | string : String → EvaluationContextFieldValue
  | dateTime : DateTime → EvaluationContextFieldValue
  | struct : StructValue → EvaluationContextFieldValue

/-- `EvaluationContextFieldValue::as_str`: yields the string when the
attribute value is string-typed, and nothing otherwise. -/
def EvaluationContextFieldValue.as_str :
    EvaluationContextFieldValue → Option String
  | EvaluationContextFieldValue.string s => some s
  | _ => none

/-- `open_feature::EvaluationContext`: an optional targeting identifier and
a mapping of named attributes.  The attribute map is modelled by its
association list in iteration order. -/
structure EvaluationContext where
  targeting_key : Option String
  custom_fields : List (String × EvaluationContextFieldValue)

/-- Modelled from the spec: the engine's attribute-value representation
(`configcat::UserValue`) — a string, integer number, or float number. -/
inductive UserValue where
  | string : String → UserValue
  | int : Int → UserValue
  | float : F64 → UserValue
  deriving DecidableEq, Repr

/-- Modelled from the spec: the engine's subject record (`configcat::User`)
— a primary identifier plus dedicated email/country fields and a mapping
of named custom attributes. -/
structure User where
  identifier : String
  email : Option String
  country : Option String
  custom : List (String × UserValue)
  deriving DecidableEq, Repr

/-- `User::new`: a subject with the given identifier and no attributes. -/
def User.new (identifier : String) : User :=
  { identifier := identifier, email := none, country := none, custom := [] }

/-- Modelled from the spec: the reserved attribute identifier routed to the
subject's dedicated email field (the configcat crate's `User::EMAIL`
constant, not part of this repository's sources). -/
def User.EMAIL : String := "email"

/-- Modelled from the spec: the reserved attribute identifier routed to the
subject's dedicated country field (the configcat crate's `User::COUNTRY`
constant, not part of this repository's sources). -/
def User.COUNTRY : String := "country"

/-- `User::email` builder: populates the dedicated email field. -/
def User.setEmail (u : User) (email : String) : User :=
  { u with email := some email }

/-- `User::country` builder: populates the dedicated country field. -/
def User.setCountry (u : User) (country : String) : User :=
  { u with country := some country }

/-- `User::custom` builder: records a named custom attribute. -/
def User.setCustom (u : User) (key : String) (val : UserValue) : User :=
  { u with custom := u.custom ++ [(key, val)] }

/-- Modelled from the spec: the engine's error kinds, "including
config-unavailable, key-missing, type-mismatch"; every remaining kind is
represented by `otherKind n`. -/
inductive ErrorKind where
  | ConfigJsonNotAvailable : ErrorKind
  | SettingKeyMissing : ErrorKind
  | SettingValueTypeMismatch : ErrorKind
  | otherKind : Nat → ErrorKind
  deriving DecidableEq, Repr

/-- `configcat::ClientError`: a kind plus a human-readable message. -/
structure ClientError where
  kind : ErrorKind
  message : String
  deriving DecidableEq, Repr

/-- `configcat::EvaluationDetails<T>`, restricted to the fields the adapter
reads: value, optional variation identifier, optional error, and the
optional matched targeting rule / matched percentage option (opaque to
the adapter, so their payloads are modelled by `Unit`). -/
structure EvaluationDetails (T : Type) where
  value : T
  variation_id : Option String
  error : Option ClientError
  matched_targeting_rule : Option Unit
  matched_percentage_option : Option Unit

/-- `open_feature::EvaluationErrorCode`. -/
inductive EvaluationErrorCode where
  | ProviderNotReady : EvaluationErrorCode
  | FlagNotFound : EvaluationErrorCode
  | ParseError : EvaluationErrorCode
  | TypeMismatch : EvaluationErrorCode
  | TargetingKeyMissing : EvaluationErrorCode
  | InvalidContext : EvaluationErrorCode
  | General : String → EvaluationErrorCode
  deriving DecidableEq, Repr

/-- `open_feature::EvaluationError`: code plus optional message.  The Rust
builder chain `EvaluationError::builder().code(c).message(m).build()`
constructs `{ code := c, message := some m }`. -/
structure EvaluationError where
  code : EvaluationErrorCode
  message : Option String
  deriving DecidableEq, Repr

/-- `open_feature::EvaluationReason`. -/
inductive EvaluationReason where
  | Static : EvaluationReason
  | Default : EvaluationReason
  | TargetingMatch : EvaluationReason
  | Split : EvaluationReason
  | Cached : EvaluationReason
  | Disabled : EvaluationReason
  | Unknown : EvaluationReason
  | Error : EvaluationReason
  deriving DecidableEq, Repr

/-- `open_feature::FlagMetadata` (never populated by this adapter). -/
structure FlagMetadata where
  entries : List (String × String)

/-- `open_feature::provider::ResolutionDetails<T>`. -/
structure ResolutionDetails (T : Type) where
  value : T
  reason : Option EvaluationReason
  variant : Option String
  flag_metadata : Option FlagMetadata

/-- `EvaluationResult<T> = Result<T, EvaluationError>`. -/
def EvaluationResult (T : Type) : Type := Except EvaluationError T

/-- `to_user_value` (src/provider.rs lines 196-205): converts a supported
scalar attribute value into the engine's attribute-value representation;
a nested structure is unsupported and yields nothing. -/
def to_user_value (val : EvaluationContextFieldValue) : Option UserValue :=
  match val with
  | EvaluationContextFieldValue.bool b =>
      some (UserValue.string (if b then "true" else "false"))
  | EvaluationContextFieldValue.int i => some (UserValue.int i)
  | EvaluationContextFieldValue.float f => some (UserValue.float f)
  | EvaluationContextFieldValue.string s => some (UserValue.string s)
  | EvaluationContextFieldValue.dateTime d =>
      some (UserValue.int d.unix_timestamp)
  | EvaluationContextFieldValue.struct _ => none

/-- The invalid-context error raised for an unsupported attribute
(src/provider.rs lines 183-188). -/
def invalidContextError (key : String) : EvaluationError :=
  { code := EvaluationErrorCode.InvalidContext,
    message :=
      some (key ++ " context attribute is not supported by the ConfigCat Provider.") }

/-- The attribute loop of `to_user` (src/provider.rs lines 167-192): fold
the attribute list over the subject under construction, with early return
of an invalid-context error for an unsupported attribute. -/
def to_user_loop : User → List (String × EvaluationContextFieldValue) →
    Except EvaluationError User
  | u, [] => Except.ok u
  | u, (key, attr) :: rest =>
    if key = User.EMAIL then
      match attr.as_str with
      | some email => to_user_loop (u.setEmail email) rest
      | none => to_user_loop u rest
    else if key = User.COUNTRY then
      match attr.as_str with
      | some country => to_user_loop (u.setCountry country) rest
      | none => to_user_loop u rest
    else
      match to_user_value attr with
      | some attr_val => to_user_loop (u.setCustom key attr_val) rest
      | none => Except.error (invalidContextError key)

/-- `to_user` (src/provider.rs lines 158-194): translate an evaluation
context into the engine's optional subject record, or reject it. -/
def to_user (ctx : EvaluationContext) :
    Except EvaluationError (Option User) :=
  if ctx.targeting_key.isNone && ctx.custom_fields.isEmpty then
    Except.ok none
  else
    let identifier :=
      match ctx.targeting_key with
      | some id => id
      | none => ""
    match to_user_loop (User.new identifier) ctx.custom_fields with
    | Except.ok user => Except.ok (some user)
    | Except.error err => Except.error err

/-- `to_res_error` (src/provider.rs lines 258-277): map an engine error to
a provider error, preserving the message. -/
def to_res_error (err : ClientError) : EvaluationError :=
  match err.kind with
  | ErrorKind.ConfigJsonNotAvailable =>
      { code := EvaluationErrorCode.ParseError, message := some err.message }
  | ErrorKind.SettingKeyMissing =>
      { code := EvaluationErrorCode.FlagNotFound, message := some err.message }
  | ErrorKind.SettingValueTypeMismatch =>
      { code := EvaluationErrorCode.TypeMismatch, message := some err.message }
  | ErrorKind.otherKind _ =>
      { code := EvaluationErrorCode.General "Provider error",
        message := some err.message }

/-- `construct_reason` (src/provider.rs lines 279-284). -/
def construct_reason {T : Type} (details : EvaluationDetails T) :
    EvaluationReason :=
  if details.matched_percentage_option.isSome ||
      details.matched_targeting_rule.isSome then
    EvaluationReason.TargetingMatch
  else
    EvaluationReason.Default

/-- `to_res_details` (src/provider.rs lines 207-220). -/
def to_res_details {T : Type} (details : EvaluationDetails T) :
    EvaluationResult (ResolutionDetails T) :=
  match details.error with
  | some err => Except.error (to_res_error err)
  | none =>
    Except.ok
      { value := details.value,
        reason := some (construct_reason details),
        variant := details.variation_id,
        flag_metadata := none }

/-- `to_struct_details` (src/provider.rs lines 222-256).  The two external
parsing steps — `serde_json::from_str` into a JSON value of some type `J`,
and the `TryFrom` conversion of that JSON value into an
`open_feature::Value` — live in the collaborating crates, so the function
is parametric in them, mirroring exactly how the source composes them. -/
def to_struct_details {J : Type} (fromStr : String → Except String J)
    (tryInto : J → Except EvaluationError Value)
    (details : EvaluationDetails String) :
    EvaluationResult (ResolutionDetails StructValue) :=
  match details.error with
  | some err => Except.error (to_res_error err)
  | none =>
    match fromStr details.value with
    | Except.error err =>
        Except.error
          { code := EvaluationErrorCode.ParseError,
            message :=
              some ("Failed to parse JSON from evaluated string: " ++ err) }
    | Except.ok json_val =>
      match tryInto json_val with
      | Except.error err => Except.error err
      | Except.ok val =>
        match val.as_struct with
        | some struct_val =>
            Except.ok
              { value := struct_val,
                reason := some (construct_reason details),
                variant := details.variation_id,
                flag_metadata := none }
        | none =>
            Except.error
              { code := EvaluationErrorCode.TypeMismatch,
                message := some "Parsed value is not a StructValue" }

/-- An evaluation engine for value type `T`: the narrow call contract
`get_value_details(flag_key, default, user)` of the external engine,
modelled as a function. -/
def Engine (T : Type) : Type :=
  String → T → Option User → EvaluationDetails T

/-- One recorded engine invocation: the flag key, the default value passed,
and the optional subject passed. -/
def EngineCall (T : Type) : Type := String × T × Option User

/-- `resolve_bool_value` (src/provider.rs lines 81-93), with the external
engine as a parameter.  The second component records the engine
invocations the operation performs, in order. -/
def resolve_bool_value (engine : Engine Bool) (flag_key : String)
    (ctx : EvaluationContext) :
    EvaluationResult (ResolutionDetails Bool) × List (EngineCall Bool) :=
  match to_user ctx with
  | Except.ok user =>
      (to_res_details (engine flag_key false user), [(flag_key, false, user)])
  | Except.error err => (Except.error err, [])

/-- `resolve_int_value` (src/provider.rs lines 95-107). -/
def resolve_int_value (engine : Engine Int) (flag_key : String)
    (ctx : EvaluationContext) :
    EvaluationResult (ResolutionDetails Int) × List (EngineCall Int) :=
  match to_user ctx with
  | Except.ok user =>
      (to_res_details (engine flag_key 0 user), [(flag_key, 0, user)])
  | Except.error err => (Except.error err, [])

/-- `resolve_float_value` (src/provider.rs lines 109-121).  The Rust
literal `0.0` is IEEE-754 positive zero, whose bit pattern is zero. -/
def resolve_float_value (engine : Engine F64) (flag_key : String)
    (ctx : EvaluationContext) :
    EvaluationResult (ResolutionDetails F64) × List (EngineCall F64) :=
  match to_user ctx with
  | Except.ok user =>
      (to_res_details (engine flag_key (F64.mk 0) user),
        [(flag_key, F64.mk 0, user)])
  | Except.error err => (Except.error err, [])

/-- `resolve_string_value` (src/provider.rs lines 123-138); the default is
`String::default()`, the empty string. -/
def resolve_string_value (engine : Engine String) (flag_key : String)
    (ctx : EvaluationContext) :
    EvaluationResult (ResolutionDetails String) × List (EngineCall String) :=
  match to_user ctx with
  | Except.ok user =>
      (to_res_details (engine flag_key "" user), [(flag_key, "", user)])
  | Except.error err => (Except.error err, [])

/-- `resolve_struct_value` (src/provider.rs lines 140-155): calls the
string-typed engine with the empty-string default, then translates via
`to_struct_details` with the given parsing pipeline. -/
def resolve_struct_value {J : Type} (fromStr : String → Except String J)
    (tryInto : J → Except EvaluationError Value) (engine : Engine String)
    (flag_key : String) (ctx : EvaluationContext) :
    EvaluationResult (ResolutionDetails StructValue) ×
      List (EngineCall String) :=
  match to_user ctx with
  | Except.ok user =>
      (to_struct_details fromStr tryInto (engine flag_key "" user),
        [(flag_key, "", user)])
  | Except.error err => (Except.error err, [])

/-! ## Helper lemmas -/

/-- Every step of the attribute loop preserves the subject's primary
identifier: the email/country/custom builders never touch it. -/
theorem to_user_loop_identifier :
    ∀ (fields : List (String × EvaluationContextFieldValue)) (u u' : User),
      to_user_loop u fields = Except.ok u' → u'.identifier = u.identifier := by
  intro fields
  induction fields with
  | nil =>
    intro u u' h
    simp only [to_user_loop] at h
    cases h
    rfl
  | cons head rest ih =>
    intro u u' h
    obtain ⟨key, attr⟩ := head
    simp only [to_user_loop] at h
    split at h
    · split at h
      · exact Eq.trans (ih _ _ h) rfl
      · exact Eq.trans (ih _ _ h) rfl
    · split at h
      · split at h
        · exact Eq.trans (ih _ _ h) rfl
        · exact Eq.trans (ih _ _ h) rfl
      · split at h
        · exact Eq.trans (ih _ _ h) rfl
        · cases h

/-- `to_user_value` rejects exactly the structured values. -/
theorem to_user_value_eq_none (attr : EvaluationContextFieldValue) :
    to_user_value attr = none ↔
      ∃ sv, attr = EvaluationContextFieldValue.struct sv := by
  cases attr <;> simp [to_user_value]

/-- If the attribute list holds a structured value under a non-reserved
name, the attribute loop aborts with the invalid-context error of such an
offending attribute, whatever the subject under construction. -/
theorem to_user_loop_struct_error :
    ∀ (fields : List (String × EvaluationContextFieldValue)),
      (∃ k sv, (k, EvaluationContextFieldValue.struct sv) ∈ fields ∧
        k ≠ User.EMAIL ∧ k ≠ User.COUNTRY) →
      ∃ k, (∃ sv, (k, EvaluationContextFieldValue.struct sv) ∈ fields) ∧
        k ≠ User.EMAIL ∧ k ≠ User.COUNTRY ∧
        ∀ u : User, to_user_loop u fields = Except.error (invalidContextError k) := by
  intro fields
  induction fields with
  | nil =>
    rintro ⟨k, sv, hmem, -⟩
    exact absurd hmem (List.not_mem_nil _)
  | cons head rest ih =>
    rintro ⟨k, sv, hmem, hk1, hk2⟩
    obtain ⟨key, attr⟩ := head
    by_cases hkey1 : key = User.EMAIL
    · have hrest : (k, EvaluationContextFieldValue.struct sv) ∈ rest := by
        rcases List.mem_cons.mp hmem with hhd | htl
        · exact absurd (congrArg Prod.fst hhd) (by simpa [hkey1] using hk1)
        · exact htl
      obtain ⟨k', hk'mem, hk'1, hk'2, hloop⟩ := ih ⟨k, sv, hrest, hk1, hk2⟩
      refine ⟨k', ?_, hk'1, hk'2, ?_⟩
      · obtain ⟨sv', hsv'⟩ := hk'mem
        exact ⟨sv', List.mem_cons_of_mem _ hsv'⟩
      · intro u
        cases hstr : attr.as_str <;> simp [to_user_loop, hkey1, hstr, hloop]
    · by_cases hkey2 : key = User.COUNTRY
      · have hrest : (k, EvaluationContextFieldValue.struct sv) ∈ rest := by
          rcases List.mem_cons.mp hmem with hhd | htl
          · exact absurd (congrArg Prod.fst hhd) (by simpa [hkey2] using hk2)
          · exact htl
        obtain ⟨k', hk'mem, hk'1, hk'2, hloop⟩ := ih ⟨k, sv, hrest, hk1, hk2⟩
        refine ⟨k', ?_, hk'1, hk'2, ?_⟩
        · obtain ⟨sv', hsv'⟩ := hk'mem
          exact ⟨sv', List.mem_cons_of_mem _ hsv'⟩
        · intro u
          cases hstr : attr.as_str <;>
            simp [to_user_loop, hkey1, hkey2, hstr, hloop]
      · cases hval : to_user_value attr with
        | none =>
          obtain ⟨sv', hsv'⟩ := (to_user_value_eq_none attr).mp hval
          refine ⟨key, ⟨sv', by simp [hsv']⟩, hkey1, hkey2, ?_⟩
          intro u
          simp [to_user_loop, hkey1, hkey2, hval]
        | some uv =>
          have hrest : (k, EvaluationContextFieldValue.struct sv) ∈ rest := by
            rcases List.mem_cons.mp hmem with hhd | htl
            · exfalso
              have hattr : attr = EvaluationContextFieldValue.struct sv :=
                (congrArg Prod.snd hhd).symm
              rw [hattr] at hval
              simp [to_user_value] at hval
            · exact htl
          obtain ⟨k', hk'mem, hk'1, hk'2, hloop⟩ := ih ⟨k, sv, hrest, hk1, hk2⟩
          refine ⟨k', ?_, hk'1, hk'2, ?_⟩
          · obtain ⟨sv', hsv'⟩ := hk'mem
            exact ⟨sv', List.mem_cons_of_mem _ hsv'⟩
          · intro u
            simp [to_user_loop, hkey1, hkey2, hval, hloop]

/-- A trivially successful engine returning the default it is handed, used
to instantiate theorems at concrete inputs. -/
def demoEngine (T : Type) : Engine T :=
  fun _ dflt _ =>
    { value := dflt, variation_id := none, error := none,
      matched_targeting_rule := none, matched_percentage_option := none }

/-! ## Claims -/

/-- C1: For every engine result carrying an error, the error translation
maps ConfigJsonNotAvailable to ParseError, SettingKeyMissing to
FlagNotFound, SettingValueTypeMismatch to TypeMismatch, and every other
kind to the generic `General "Provider error"` code, always preserving
the engine error's message unchanged; both result translators surface
such an error as-is. -/
theorem to_res_error_table :
    ∀ m : String,
      to_res_error { kind := ErrorKind.ConfigJsonNotAvailable, message := m } =
        { code := EvaluationErrorCode.ParseError, message := some m } ∧
      to_res_error { kind := ErrorKind.SettingKeyMissing, message := m } =
        { code := EvaluationErrorCode.FlagNotFound, message := some m } ∧
      to_res_error { kind := ErrorKind.SettingValueTypeMismatch, message := m } =
        { code := EvaluationErrorCode.TypeMismatch, message := some m } ∧
      (∀ n : Nat,
        to_res_error { kind := ErrorKind.otherKind n, message := m } =
          { code := EvaluationErrorCode.General "Provider error",
            message := some m }) ∧
      (∀ e : ClientError, (to_res_error e).message = some e.message) ∧
      (∀ (T : Type) (details : EvaluationDetails T) (e : ClientError),
        details.error = some e →
        to_res_details details = Except.error (to_res_error e)) ∧
      (∀ (J : Type) (fromStr : String → Except String J)
        (tryInto : J → Except EvaluationError Value)
        (details : EvaluationDetails String) (e : ClientError),
        details.error = some e →
        to_struct_details fromStr tryInto details =
          Except.error (to_res_error e)) := by
  intro m
  refine ⟨rfl, rfl, rfl, fun n => rfl, ?_, ?_, ?_⟩
  · rintro ⟨kind, msg⟩
    cases kind <;> rfl
  · intro T details e h
    simp [to_res_details, h]
  · intro J fromStr tryInto details e h
    simp [to_struct_details, h]

/-- Witness for C1 at a concrete errored engine result. -/
theorem to_res_error_table_witness :
    to_res_details
      { value := false, variation_id := none,
        error := some (ClientError.mk ErrorKind.SettingKeyMissing "the key was not found"),
        matched_targeting_rule := none, matched_percentage_option := none } =
      Except.error
        { code := EvaluationErrorCode.FlagNotFound,
          message := some "the key was not found" } := by
  have h := (to_res_error_table "the key was not found").2.2.2.2.2.1 Bool
    { value := false, variation_id := none,
      error := some (ClientError.mk ErrorKind.SettingKeyMissing "the key was not found"),
      matched_targeting_rule := none, matched_percentage_option := none }
    (ClientError.mk ErrorKind.SettingKeyMissing "the key was not found")
    rfl
  exact h.trans rfl

/-- C2: every error-free engine result translates to a resolution carrying
exactly one reason, and that reason is TargetingMatch iff the engine
matched a targeting rule or a percentage option, otherwise Default. -/
theorem to_res_details_reason :
    ∀ (T : Type) (details : EvaluationDetails T),
      details.error = none →
      ∃ r : EvaluationReason,
        to_res_details details =
          Except.ok
            { value := details.value, reason := some r,
              variant := details.variation_id, flag_metadata := none } ∧
        (r = EvaluationReason.TargetingMatch ↔
          (details.matched_targeting_rule.isSome = true ∨
            details.matched_percentage_option.isSome = true)) ∧
        (r = EvaluationReason.TargetingMatch ∨
          r = EvaluationReason.Default) := by
  intro T details h
  refine ⟨construct_reason details, ?_, ?_, ?_⟩
  · simp [to_res_details, h]
  · rcases hp : details.matched_percentage_option with _ | u <;>
      rcases ht : details.matched_targeting_rule with _ | v <;>
        simp [construct_reason, hp, ht]
  · rcases hp : details.matched_percentage_option with _ | u <;>
      rcases ht : details.matched_targeting_rule with _ | v <;>
        simp [construct_reason, hp, ht]

/-- Witness for C2 at a concrete error-free engine result with a matched
targeting rule: the reported reason is TargetingMatch. -/
theorem to_res_details_reason_witness :
    to_res_details
      { value := (5 : Int), variation_id := some "v-int",
        error := none, matched_targeting_rule := some (),
        matched_percentage_option := none } =
      Except.ok
        { value := (5 : Int), reason := some EvaluationReason.TargetingMatch,
          variant := some "v-int", flag_metadata := none } := by
  obtain ⟨r, hres, hiff, -⟩ := to_res_details_reason Int
    { value := 5, variation_id := some "v-int", error := none,
      matched_targeting_rule := some (), matched_percentage_option := none }
    rfl
  have hr : r = EvaluationReason.TargetingMatch := hiff.mpr (Or.inl rfl)
  rw [hr] at hres
  exact hres

/-- C5: a context with no targeting identifier and no attributes translates
to "no subject", and every resolve operation then invokes the engine
without a per-subject user. -/
theorem empty_context_no_subject :
    ∀ ctx : EvaluationContext,
      ctx.targeting_key = none → ctx.custom_fields = [] →
      to_user ctx = Except.ok none ∧
      (∀ (engine : Engine Bool) (key : String),
        (resolve_bool_value engine key ctx).2 = [(key, false, none)]) ∧
      (∀ (engine : Engine Int) (key : String),
        (resolve_int_value engine key ctx).2 = [(key, 0, none)]) ∧
      (∀ (engine : Engine F64) (key : String),
        (resolve_float_value engine key ctx).2 = [(key, F64.mk 0, none)]) ∧
      (∀ (engine : Engine String) (key : String),
        (resolve_string_value engine key ctx).2 = [(key, "", none)]) ∧
      (∀ (J : Type) (fromStr : String → Except String J)
        (tryInto : J → Except EvaluationError Value)
        (engine : Engine String) (key : String),
        (resolve_struct_value fromStr tryInto engine key ctx).2 =
          [(key, "", none)]) := by
  intro ctx h1 h2
  have hu : to_user ctx = Except.ok none := by
    simp [to_user, h1, h2]
  refine ⟨hu, ?_, ?_, ?_, ?_, ?_⟩ <;> intros <;>
    simp [resolve_bool_value, resolve_int_value, resolve_float_value,
      resolve_string_value, resolve_struct_value, hu]

/-- Witness for C5 at the concrete empty context. -/
theorem empty_context_no_subject_witness :
    to_user { targeting_key := none, custom_fields := [] } =
      Except.ok none ∧
    (resolve_bool_value (demoEngine Bool) "flag"
        { targeting_key := none, custom_fields := [] }).2 =
      [("flag", false, none)] := by
  have h := empty_context_no_subject
    { targeting_key := none, custom_fields := [] } rfl rfl
  exact ⟨h.1, h.2.1 (demoEngine Bool) "flag"⟩

/-- C8: a context with only a targeting identifier yields a subject whose
identifier is that key and which carries no attributes; in general a
constructed subject's identifier is the targeting identifier, or the
empty string when it is absent. -/
theorem subject_identifier_spec :
    ∀ (tk : String) (ctx : EvaluationContext),
      to_user { targeting_key := some tk, custom_fields := [] } =
        Except.ok (some (User.new tk)) ∧
      (User.new tk).email = none ∧ (User.new tk).country = none ∧
      (User.new tk).custom = [] ∧
      (∀ u : User, to_user ctx = Except.ok (some u) →
        u.identifier = ctx.targeting_key.getD "") := by
  intro tk ctx
  refine ⟨?_, rfl, rfl, rfl, ?_⟩
  · simp [to_user, to_user_loop]
  · intro u h
    simp only [to_user] at h
    split at h
    · simp at h
    · split at h
      · rename_i user heq
        have huser : user = u := by
          simpa using h
        have hid := to_user_loop_identifier _ _ _ heq
        rw [huser] at hid
        rw [hid]
        cases htk : ctx.targeting_key <;> simp [htk, User.new]
      · simp at h

/-- Witness for C8 at a concrete context holding only a targeting key and
an email attribute. -/
theorem subject_identifier_spec_witness :
    to_user { targeting_key := some "abc", custom_fields := [] } =
      Except.ok (some (User.new "abc")) ∧
    ((User.new "abc").setEmail "e@x.io").identifier =
      (Option.getD (some "abc") "") := by
  have h := subject_identifier_spec "abc"
    { targeting_key := some "abc",
      custom_fields := [(User.EMAIL, EvaluationContextFieldValue.string "e@x.io")] }
  exact ⟨h.1, h.2.2.2.2 ((User.new "abc").setEmail "e@x.io") rfl⟩

/-- C3 counterexample: a structured value under a reserved attribute name
(here the email identifier) does not fail context translation — it is
silently dropped and a subject is still returned, so the invalid-context
rejection does not hold "regardless of the attribute's name". -/
theorem to_user_reserved_struct_cex :
    to_user
      { targeting_key := none,
        custom_fields := [(User.EMAIL, EvaluationContextFieldValue.struct [])] } =
      Except.ok (some (User.new "")) := by
  rfl

/-- C3 (amended): a structured value under a non-reserved attribute name
always fails the whole translation with an invalid-context error naming
an offending structured attribute, regardless of the other attributes
present, and no subject is returned. -/
theorem to_user_struct_invalid :
    ∀ ctx : EvaluationContext,
      (∃ k sv, (k, EvaluationContextFieldValue.struct sv) ∈ ctx.custom_fields ∧
        k ≠ User.EMAIL ∧ k ≠ User.COUNTRY) →
      ∃ k, (∃ sv, (k, EvaluationContextFieldValue.struct sv) ∈ ctx.custom_fields) ∧
        k ≠ User.EMAIL ∧ k ≠ User.COUNTRY ∧
        to_user ctx =
          Except.error
            { code := EvaluationErrorCode.InvalidContext,
              message :=
                some (k ++ " context attribute is not supported by the ConfigCat Provider.") } := by
  intro ctx hex
  obtain ⟨k', hk'mem, hk'1, hk'2, hloop⟩ :=
    to_user_loop_struct_error ctx.custom_fields hex
  refine ⟨k', hk'mem, hk'1, hk'2, ?_⟩
  have hne : ctx.custom_fields ≠ [] := by
    intro hnil
    obtain ⟨sv', hsv'⟩ := hk'mem
    rw [hnil] at hsv'
    exact absurd hsv' (List.not_mem_nil _)
  have hguard : (ctx.targeting_key.isNone && ctx.custom_fields.isEmpty) = false := by
    cases hf : ctx.custom_fields with
    | nil => exact absurd hf hne
    | cons a l => simp [hf]
  simp only [to_user, hguard, Bool.false_eq_true, if_false]
  rw [hloop]
  rfl

/-- Witness for C3 (amended) at a concrete context mixing a valid attribute
with a structured one under a non-reserved name: translation fails with
the invalid-context error naming the structured attribute. -/
theorem to_user_struct_invalid_witness :
    to_user
      { targeting_key := some "id",
        custom_fields :=
          [("age", EvaluationContextFieldValue.int 3),
            ("payload", EvaluationContextFieldValue.struct [])] } =
      Except.error
        { code := EvaluationErrorCode.InvalidContext,
          message :=
            some ("payload context attribute is not supported by the ConfigCat Provider.") } := by
  obtain ⟨k, ⟨sv, hmem⟩, hk1, hk2, heq⟩ := to_user_struct_invalid
    { targeting_key := some "id",
      custom_fields :=
        [("age", EvaluationContextFieldValue.int 3),
          ("payload", EvaluationContextFieldValue.struct [])] }
    ⟨"payload", [], by simp, by decide, by decide⟩
  have hk : k = "payload" := by
    rcases List.mem_cons.mp hmem with hhd | htl
    · exact absurd (congrArg Prod.snd hhd) (by simp)
    · rcases List.mem_singleton.mp htl with h
      exact congrArg Prod.fst h
  rw [hk] at heq
  exact heq

/-- C4: a reserved-named attribute ("Email"/"Country") with a string value
populates the subject's corresponding dedicated field, while a non-string
value under such a name is silently dropped — the loop continues as if
the attribute were absent — and a context holding only such a dropped
attribute still translates successfully. -/
theorem reserved_attribute_routing :
    ∀ (u : User) (rest : List (String × EvaluationContextFieldValue))
      (s : String) (v : EvaluationContextFieldValue) (tk : Option String),
      v.as_str = none →
      to_user_loop u ((User.EMAIL, EvaluationContextFieldValue.string s) :: rest) =
        to_user_loop (u.setEmail s) rest ∧
      to_user_loop u ((User.COUNTRY, EvaluationContextFieldValue.string s) :: rest) =
        to_user_loop (u.setCountry s) rest ∧
      to_user_loop u ((User.EMAIL, v) :: rest) = to_user_loop u rest ∧
      to_user_loop u ((User.COUNTRY, v) :: rest) = to_user_loop u rest ∧
      to_user { targeting_key := tk, custom_fields := [(User.EMAIL, v)] } =
        Except.ok (some (User.new (tk.getD ""))) ∧
      to_user { targeting_key := tk, custom_fields := [(User.COUNTRY, v)] } =
        Except.ok (some (User.new (tk.getD ""))) := by
  intro u rest s v tk hv
  refine ⟨?_, ?_, ?_, ?_, ?_, ?_⟩
  · simp [to_user_loop, EvaluationContextFieldValue.as_str]
  · simp [to_user_loop, EvaluationContextFieldValue.as_str, User.EMAIL,
      User.COUNTRY]
  · simp [to_user_loop, hv]
  · simp [to_user_loop, hv, User.EMAIL, User.COUNTRY]
  · cases tk <;> simp [to_user, to_user_loop, hv]
  · cases tk <;>
      simp [to_user, to_user_loop, hv, User.EMAIL, User.COUNTRY]

/-- Witness for C4 at concrete inputs: a non-string (boolean) value under
the reserved email name is dropped, and a string value populates the
dedicated field. -/
theorem reserved_attribute_routing_witness :
    to_user_loop (User.new "id")
        [(User.EMAIL, EvaluationContextFieldValue.string "a@b.c")] =
      to_user_loop ((User.new "id").setEmail "a@b.c") [] ∧
    to_user_loop (User.new "id")
        [(User.EMAIL, EvaluationContextFieldValue.bool true)] =
      to_user_loop (User.new "id") [] ∧
    to_user
        { targeting_key := some "id",
          custom_fields := [(User.EMAIL, EvaluationContextFieldValue.bool true)] } =
      Except.ok (some (User.new ((some "id").getD ""))) := by
  have h := reserved_attribute_routing (User.new "id") [] "a@b.c"
    (EvaluationContextFieldValue.bool true) (some "id") rfl
  exact ⟨h.1, h.2.2.1, h.2.2.2.2.1⟩

/-- C9: each supported scalar attribute value converts to the engine's
attribute-value representation — boolean to its string rendering, integer
to integer, float to float, string to string, timestamp to its Unix time
in integer seconds — and under a non-reserved name the converted value is
recorded as a custom attribute of the subject. -/
theorem attribute_value_conversion :
    ∀ (k : String) (u : User) (rest : List (String × EvaluationContextFieldValue))
      (b : Bool) (i : Int) (f : F64) (s : String) (d : DateTime),
      k ≠ User.EMAIL → k ≠ User.COUNTRY →
      to_user_value (EvaluationContextFieldValue.bool b) =
        some (UserValue.string (if b then "true" else "false")) ∧
      to_user_value (EvaluationContextFieldValue.int i) =
        some (UserValue.int i) ∧
      to_user_value (EvaluationContextFieldValue.float f) =
        some (UserValue.float f) ∧
      to_user_value (EvaluationContextFieldValue.string s) =
        some (UserValue.string s) ∧
      to_user_value (EvaluationContextFieldValue.dateTime d) =
        some (UserValue.int d.unix_timestamp) ∧
      (∀ (v : EvaluationContextFieldValue) (uv : UserValue),
        to_user_value v = some uv →
        to_user_loop u ((k, v) :: rest) =
          to_user_loop (u.setCustom k uv) rest) := by
  intro k u rest b i f s d hk1 hk2
  refine ⟨rfl, rfl, rfl, rfl, rfl, ?_⟩
  intro v uv hv
  simp [to_user_loop, hk1, hk2, hv]

/-- Witness for C9 at concrete inputs: a timestamp custom attribute is
recorded as its Unix seconds under a non-reserved name. -/
theorem attribute_value_conversion_witness :
    to_user_value (EvaluationContextFieldValue.bool true) =
      some (UserValue.string "true") ∧
    to_user_loop (User.new "id")
        [("signup", EvaluationContextFieldValue.dateTime (DateTime.mk 1700000000))] =
      to_user_loop ((User.new "id").setCustom "signup" (UserValue.int 1700000000)) [] := by
  have h := attribute_value_conversion "signup" (User.new "id") [] true 0
    (F64.mk 0) "" (DateTime.mk 1700000000) (by decide) (by decide)
  exact ⟨h.1, h.2.2.2.2.2
    (EvaluationContextFieldValue.dateTime (DateTime.mk 1700000000))
    (UserValue.int 1700000000) rfl⟩

/-- C6: every resolve operation first translates the context; on failure it
returns that translation error without invoking the engine (the call log
is empty), and on success it invokes the engine exactly once with the
flag key, the kind-appropriate zero-value default, and the translated
subject, returning the translated engine result. -/
theorem resolve_operations_spec :
    ∀ (flag_key : String) (ctx : EvaluationContext),
      (∀ err : EvaluationError, to_user ctx = Except.error err →
        (∀ engine : Engine Bool,
          resolve_bool_value engine flag_key ctx = (Except.error err, [])) ∧
        (∀ engine : Engine Int,
          resolve_int_value engine flag_key ctx = (Except.error err, [])) ∧
        (∀ engine : Engine F64,
          resolve_float_value engine flag_key ctx = (Except.error err, [])) ∧
        (∀ engine : Engine String,
          resolve_string_value engine flag_key ctx = (Except.error err, [])) ∧
        (∀ (J : Type) (fromStr : String → Except String J)
          (tryInto : J → Except EvaluationError Value)
          (engine : Engine String),
          resolve_struct_value fromStr tryInto engine flag_key ctx =
            (Except.error err, []))) ∧
      (∀ user : Option User, to_user ctx = Except.ok user →
        (∀ engine : Engine Bool,
          resolve_bool_value engine flag_key ctx =
            (to_res_details (engine flag_key false user),
              [(flag_key, false, user)])) ∧
        (∀ engine : Engine Int,
          resolve_int_value engine flag_key ctx =
            (to_res_details (engine flag_key 0 user),
              [(flag_key, 0, user)])) ∧
        (∀ engine : Engine F64,
          resolve_float_value engine flag_key ctx =
            (to_res_details (engine flag_key (F64.mk 0) user),
              [(flag_key, F64.mk 0, user)])) ∧
        (∀ engine : Engine String,
          resolve_string_value engine flag_key ctx =
            (to_res_details (engine flag_key "" user),
              [(flag_key, "", user)])) ∧
        (∀ (J : Type) (fromStr : String → Except String J)
          (tryInto : J → Except EvaluationError Value)
          (engine : Engine String),
          resolve_struct_value fromStr tryInto engine flag_key ctx =
            (to_struct_details fromStr tryInto (engine flag_key "" user),
              [(flag_key, "", user)]))) := by
  intro flag_key ctx
  constructor
  · intro err herr
    refine ⟨?_, ?_, ?_, ?_, ?_⟩ <;> intros <;>
      simp [resolve_bool_value, resolve_int_value, resolve_float_value,
        resolve_string_value, resolve_struct_value, herr]
  · intro user huser
    refine ⟨?_, ?_, ?_, ?_, ?_⟩ <;> intros <;>
      simp [resolve_bool_value, resolve_int_value, resolve_float_value,
        resolve_string_value, resolve_struct_value, huser]

/-- Witness for C6 at a concrete context whose translation succeeds, with
the demo engine. -/
theorem resolve_operations_spec_witness :
    resolve_bool_value (demoEngine Bool) "flag"
        { targeting_key := some "id", custom_fields := [] } =
      (to_res_details (demoEngine Bool "flag" false (some (User.new "id"))),
        [("flag", false, some (User.new "id"))]) ∧
    resolve_string_value (demoEngine String) "flag"
        { targeting_key := some "id", custom_fields := [] } =
      (to_res_details (demoEngine String "flag" "" (some (User.new "id"))),
        [("flag", "", some (User.new "id"))]) := by
  have h := (resolve_operations_spec "flag"
    { targeting_key := some "id", custom_fields := [] }).2
    (some (User.new "id")) (by rfl)
  exact ⟨h.1 (demoEngine Bool), h.2.2.2.1 (demoEngine String)⟩

/-- C7: for an error-free engine result in a structured-kind resolution,
the engine's string value is fed to the text (JSON) decoding pipeline:
decoding failure yields a parse-error naming the failure, a decoded value
that is not a keyed structure yields the type-mismatch error naming the
discrepancy, and otherwise the decoded structure is returned as the
resolution value. -/
theorem to_struct_details_spec :
    ∀ (J : Type) (fromStr : String → Except String J)
      (tryInto : J → Except EvaluationError Value)
      (details : EvaluationDetails String),
      details.error = none →
      (∀ e : String, fromStr details.value = Except.error e →
        to_struct_details fromStr tryInto details =
          Except.error
            { code := EvaluationErrorCode.ParseError,
              message :=
                some ("Failed to parse JSON from evaluated string: " ++ e) }) ∧
      (∀ (j : J) (v : Value),
        fromStr details.value = Except.ok j → tryInto j = Except.ok v →
        (v.as_struct = none →
          to_struct_details fromStr tryInto details =
            Except.error
              { code := EvaluationErrorCode.TypeMismatch,
                message := some "Parsed value is not a StructValue" }) ∧
        (∀ sv : StructValue, v.as_struct = some sv →
          to_struct_details fromStr tryInto details =
            Except.ok
              { value := sv, reason := some (construct_reason details),
                variant := details.variation_id, flag_metadata := none })) := by
  intro J fromStr tryInto details herr
  constructor
  · intro e he
    simp [to_struct_details, herr, he]
  · intro j v hj hv
    constructor
    · intro hns
      simp [to_struct_details, herr, hj, hv, hns]
    · intro sv hsv
      simp [to_struct_details, herr, hj, hv, hsv]

/-- Witness for C7 at a concrete pipeline and engine result: the identity
conversion over already-decoded values, a decoder sending the text
encoding of an empty structure to the empty structure, and an error-free
engine result carrying that text. -/
theorem to_struct_details_spec_witness :
    to_struct_details
        (fun s : String =>
          if s = "\x7b\x7d" then Except.ok (Value.struct [])
          else (Except.error "expected value" : Except String Value))
        (fun v : Value => Except.ok v)
        { value := "\x7b\x7d", variation_id := some "v-object", error := none,
          matched_targeting_rule := none, matched_percentage_option := none } =
      Except.ok
        { value := ([] : StructValue),
          reason := some (construct_reason
            { value := "\x7b\x7d", variation_id := some "v-object", error := none,
              matched_targeting_rule := none,
              matched_percentage_option := none }),
          variant := some "v-object", flag_metadata := none } := by
  have h := (to_struct_details_spec Value
    (fun s : String =>
      if s = "\x7b\x7d" then Except.ok (Value.struct [])
      else (Except.error "expected value" : Except String Value))
    (fun v : Value => Except.ok v)
    { value := "\x7b\x7d", variation_id := some "v-object", error := none,
      matched_targeting_rule := none, matched_percentage_option := none }
    rfl).2 (Value.struct []) (Value.struct []) (by rfl) rfl
  exact h.2 [] rfl

/-- C10: whenever a resolution is returned (by the scalar translator or the
structured translator), it carries no flag metadata and its variant is
the engine result's variation identifier unchanged. -/
theorem details_variant_metadata :
    (∀ (T : Type) (details : EvaluationDetails T)
      (res : ResolutionDetails T),
      to_res_details details = Except.ok res →
      res.flag_metadata = none ∧ res.variant = details.variation_id) ∧
    (∀ (J : Type) (fromStr : String → Except String J)
      (tryInto : J → Except EvaluationError Value)
      (details : EvaluationDetails String)
      (res : ResolutionDetails StructValue),
      to_struct_details fromStr tryInto details = Except.ok res →
      res.flag_metadata = none ∧ res.variant = details.variation_id) := by
  constructor
  · intro T details res h
    simp only [to_res_details] at h
    split at h
    · cases h
    · cases h
      exact ⟨rfl, rfl⟩
  · intro J fromStr tryInto details res h
    simp only [to_struct_details] at h
    split at h
    · cases h
    · split at h
      · cases h
      · split at h
        · cases h
        · split at h
          · cases h
            exact ⟨rfl, rfl⟩
          · cases h

/-- Witness for C10 at a concrete error-free engine result. -/
theorem details_variant_metadata_witness :
    ({ value := "test", reason := some EvaluationReason.Default,
        variant := some "v-string",
        flag_metadata := none } : ResolutionDetails String).flag_metadata =
      none ∧
    ({ value := "test", reason := some EvaluationReason.Default,
        variant := some "v-string",
        flag_metadata := none } : ResolutionDetails String).variant =
      some "v-string" := by
  have h := details_variant_metadata.1 String
    { value := "test", variation_id := some "v-string", error := none,
      matched_targeting_rule := none, matched_percentage_option := none }
    { value := "test", reason := some EvaluationReason.Default,
      variant := some "v-string", flag_metadata := none }
    (by rfl)
  exact h

end ConfigCatProvider
